import Mathlib

/-!
Verification of the reactive lifecycle core of the ruukh component framework.

The development shallowly embeds:
* the `Status` cell of `src/src/component.rs` (state, two dirty flags, a
  wake handle), with its read-and-clear flag accessors;
* the component code emitted by the derive macro in
  `src/codegen/src/component.rs`: the generated bodies of `update`,
  `refresh_state` and `set_state` (both the component-instance version and
  the external status-wrapper version);
* the wake channel (`do_react` over a message port) — the message-port
  bindings live in the repository's `web_api` module, so the channel itself
  is modelled from the spec;
* the always-panicking `Component`/`Lifecycle`/`Render` impls of the
  `RootParent` void component.

Modelling conventions: a component's prop fields and state fields are lists
of values of a single type `V` with decidable equality (position `i` of the
list is declared field `i`; the generated code emits one swap / one
comparison / one clone per declared field, which becomes a structural
recursion over the lists). `Rc<RefCell<Status>>` sharing is modelled by
explicit state passing: every operation takes the current contents of the
shared cell and returns the new contents. A call to `do_react` is surfaced
as a boolean "wake fired" output. Panics (`unreachable!`, `expect`) are
modelled as `Except.error`.
-/

set_option autoImplicit false
set_option linter.unusedVariables false
set_option linter.unusedSectionVars false

namespace Ruukh

universe u

variable {V : Type u} [DecidableEq V]

/-- The `Status` struct of `src/src/component.rs`: the component's mutable
state together with the two dirty flags. The `rx_sender` wake handle is not
stored here; firing it is surfaced as an explicit output of the operations
that call `do_react`. -/
structure Status (σ : Type u) where
  state : σ
  state_dirty : Bool
  props_dirty : Bool
deriving Repr, DecidableEq

namespace Status

variable {σ : Type u}

/-- `Status::new`: initializes the status with a given state and both
flags clear. -/
def new (state : σ) : Status σ :=
  { state := state, state_dirty := false, props_dirty := false }

/-- `Status::mark_state_dirty`: sets the state-dirty flag. -/
def mark_state_dirty (s : Status σ) : Status σ :=
  { s with state_dirty := true }

/-- `Status::is_state_dirty`: gets and resets the `state_dirty` flag
(read-and-clear). Returns the value read together with the status after
the call. -/
def is_state_dirty (s : Status σ) : Bool × Status σ :=
  if s.state_dirty then (true, { s with state_dirty := false })
  else (false, s)

/-- `Status::mark_props_dirty`: sets the props-dirty flag. -/
def mark_props_dirty (s : Status σ) : Status σ :=
  { s with props_dirty := true }

/-- `Status::is_props_dirty`: gets and resets the `props_dirty` flag
(read-and-clear). Returns the value read together with the status after
the call. -/
def is_props_dirty (s : Status σ) : Bool × Status σ :=
  if s.props_dirty then (true, { s with props_dirty := false })
  else (false, s)

/-- `Status::state_as_ref`: reads the state. -/
def state_as_ref (s : Status σ) : σ :=
  s.state

/-- The flag setter `Status::set_state_dirty(bool)` called by the generated
code; it writes the given value into the state-dirty flag (the `src/`
snapshot spells the `true` case `mark_state_dirty`). -/
def set_state_dirty (s : Status σ) (b : Bool) : Status σ :=
  { s with state_dirty := b }

/-- The flag setter `Status::set_props_dirty(bool)` called by the generated
code; it writes the given value into the props-dirty flag (the `src/`
snapshot spells the `true` case `mark_props_dirty`). -/
def set_props_dirty (s : Status σ) (b : Bool) : Status σ :=
  { s with props_dirty := b }

end Status

/-- One comparison per declared field, combined with short-circuit or, as in
the generated `self.#f != other.#f || ...` chains of
`src/codegen/src/component.rs` (`impl_fn_update_body`,
`impl_fn_set_state_body`): true iff at least one field differs. Lists of
different lengths never arise from generated code (both sides are the same
struct type); extra tail fields are ignored. -/
def anyDiff : List V → List V → Bool
  | a :: as, b :: bs => decide (a ≠ b) || anyDiff as bs
  | _, _ => false

/-- One `mem::swap(&mut self.#f, &mut __props__.#f)` per declared field, as
emitted by `impl_fn_update_body`: exchanges the two field lists pointwise. -/
def swapFields : List V → List V → List V × List V
  | a :: as, b :: bs =>
    let r := swapFields as bs
    (b :: r.1, a :: r.2)
  | as, bs => (as, bs)

/-- The per-field loop of `impl_fn_refresh_state_body`: for each cached
field (first list) that differs from the status's field (second list),
overwrite the cached field with a clone of the status's value and record
that something changed. Returns the new cached fields and the `changed`
flag. -/
def refreshFields : List V → List V → List V × Bool
  | a :: as, b :: bs =>
    let r := refreshFields as bs
    if a ≠ b then (b :: r.1, true) else (a :: r.1, r.2)
  | as, _ => (as, false)

/-- The struct generated for a component that declares at least one prop or
state field (and no events): its cached state fields, its prop fields, and
the contents of the shared `__status__` cell (the `Rc<RefCell<..>>` is
modelled by passing the cell's contents explicitly). -/
structure Comp (V : Type u) where
  state_fields : List V
  props_fields : List V
  status : Status (List V)
deriving Repr, DecidableEq

/-- Generated `update` body for a component with at least one declared prop
field and no declared events (`impl_fn_update_body`): swap each prop field
with the incoming `__props__`, then, if any of the instance's (new) fields
differs from the corresponding swapped-out field still held in the
parameter, mark props dirty on the status and return the parameter (now
holding the old props); otherwise return `None`. -/
def update (c : Comp V) (props : List V) : Option (List V) × Comp V :=
  let r := swapFields c.props_fields props
  if anyDiff r.1 r.2 then
    (some r.2,
      { c with props_fields := r.1, status := c.status.set_props_dirty true })
  else
    (none, { c with props_fields := r.1 })

/-- Reference strategy for `update`, written from the spec's words for the
refinement claim: capture the old and the new props before any mutation,
install the new props, compare old against new directly, and mark dirty and
return `Some(old)` iff they differ in some field. -/
def update_ref (c : Comp V) (props : List V) : Option (List V) × Comp V :=
  let old_props := c.props_fields
  let new_props := props
  if anyDiff old_props new_props then
    (some old_props,
      { c with props_fields := new_props,
               status := c.status.set_props_dirty true })
  else
    (none, { c with props_fields := new_props })

/-- Generated `refresh_state` body for a component with at least one
declared state field (`impl_fn_refresh_state_body`): borrow the status,
compare each cached field with the status's field, overwrite the differing
ones with clones, and return whether anything changed. The status cell
itself is only read. -/
def refresh_state (c : Comp V) : Bool × Comp V :=
  let state := c.status.state_as_ref
  let r := refreshFields c.state_fields state
  (r.2, { c with state_fields := r.1 })

/-- Generated `set_state` body for a component with at least one declared
state field (`impl_fn_set_state_body`): borrow the status mutably, run the
mutator on the status's state in place, then compare the instance's cached
fields against the (mutated) status state; only if some field differs, set
the state-dirty flag and fire `do_react`. Returns the component after the
call and whether the wake was fired. -/
def set_state (c : Comp V) (mutator : List V → List V) : Comp V × Bool :=
  let status := { c.status with state := mutator c.status.state }
  let changed := anyDiff c.state_fields status.state_as_ref
  if changed then
    ({ c with status := status.set_state_dirty true }, true)
  else
    ({ c with status := status }, false)

/-- Generated `SetState` impl on the status-wrapper struct — the external
state-setter handle (`impl_set_state_trait_for_status_wrapper`): borrow the
shared status mutably, run the mutator on its state in place, set the
state-dirty flag unconditionally, and fire `do_react`. Returns the status
after the call and whether the wake was fired. -/
def setter_set_state {σ : Type u} (status : Status σ) (mutator : σ → σ) :
    Status σ × Bool :=
  let status' := { status with state := mutator status.state }
  ((status'.set_state_dirty true), true)

/-- Generated `set_state` body for a component with zero declared state
fields (`impl_fn_set_state_body`, empty case): `mutator(&mut ());` — the
mutator runs against a throwaway unit value and nothing else happens. The
component's shared status (if it has one for props) is untouched and no
wake is fired; the result carries the status after the call, the unit the
mutator produced, and whether a wake was fired. -/
def set_state_stateless {σ : Type u} (status : Status σ)
    (mutator : Unit → Unit) : Status σ × Unit × Bool :=
  (status, mutator (), false)

/-- Modelled from the spec: the change-propagation channel backing the
message port of `ReactiveApp`/`MessageSender`. The port bindings live in
the repository's `web_api` module, which is not under `src/`; per the spec
the channel "only needs to convey \x22recheck the tree,\x22 not a count or
payload" and multiple fires before the consumer drains them collapse to one
wake-up, so its state is a single pending bit. -/
structure Channel where
  pending : Bool
deriving Repr, DecidableEq

/-- Modelled from the spec: the producer side of the wake channel — firing
the wake handle marks the channel pending (coalescing: firing an already
pending channel leaves one pending wake-up). -/
def fire (ch : Channel) : Channel :=
  { pending := true }

/-- Modelled from the spec: one scheduling step of the consumer side — if a
wake-up is pending, the registered consumer callback is invoked once and
the pending bit is drained; otherwise nothing runs. Returns the channel
after the step and the number of consumer-callback invocations it caused. -/
def drainOnce (ch : Channel) : Channel × Nat :=
  if ch.pending then ({ pending := false }, 1) else (ch, 0)

/-- Modelled from the spec: `MessagePort::post_message` from the `web_api`
module, which is not under `src/`. Per the spec, a wake notification fired
after the consumer side has been torn down "is defined to be silently
swallowed"; posting reports success whether or not the consumer side is
still connected. -/
def post_message (connected : Bool) : Except String Unit :=
  Except.ok ()

/-- Result of a call that may panic: either it returns normally or it
panics with a message. -/
inductive CallResult (α : Type u) where
  | ok (a : α)
  | panicked (msg : String)
deriving Repr, DecidableEq

/-- `MessageSender::do_react` (src/src/lib.rs): posts a null message on the
sender port and `expect`s the result, panicking with "Could not send the
message" if posting failed. `connected` says whether the consumer side
(the render root) still exists. -/
def do_react (connected : Bool) : CallResult Unit :=
  match post_message connected with
  | Except.ok _ => CallResult.ok ()
  | Except.error _ => CallResult.panicked "Could not send the message"

/-- The panic message of every `RootParent` operation
(src/src/component.rs): the void component must never be used as a
component itself. -/
def rootParentMsg : String :=
  "It is a void component to be used as a render context for a root component. Not to be used as a component itself."

namespace RootParent

/-- `<RootParent as Component>::init`: `unreachable!` for any inputs. -/
def init (props : Unit) (events : Unit) (status : Status Unit) :
    Except String Unit :=
  Except.error rootParentMsg

/-- `<RootParent as Component>::update`: `unreachable!` for any inputs. -/
def update (self : Unit) (props : Unit) (events : Unit) :
    Except String (Option Unit) :=
  Except.error rootParentMsg

/-- `<RootParent as Component>::refresh_state`: `unreachable!`. -/
def refresh_state (self : Unit) : Except String Unit :=
  Except.error rootParentMsg

/-- `<RootParent as Component>::is_state_dirty`: `unreachable!`. -/
def is_state_dirty (self : Unit) : Except String Bool :=
  Except.error rootParentMsg

/-- `<RootParent as Component>::is_props_dirty`: `unreachable!`. -/
def is_props_dirty (self : Unit) : Except String Bool :=
  Except.error rootParentMsg

/-- `<RootParent as Component>::set_state`: `unreachable!` for any
mutator. -/
def set_state (self : Unit) (mutator : Unit → Unit) : Except String Unit :=
  Except.error rootParentMsg

/-- `<RootParent as Lifecycle>::created`: `unreachable!`. -/
def created (self : Unit) : Except String Unit :=
  Except.error rootParentMsg

/-- `<RootParent as Lifecycle>::updated`: `unreachable!` for any old
props. -/
def updated (self : Unit) (old_props : Unit) : Except String Unit :=
  Except.error rootParentMsg

/-- `<RootParent as Lifecycle>::mounted`: `unreachable!`. -/
def mounted (self : Unit) : Except String Unit :=
  Except.error rootParentMsg

/-- `<RootParent as Lifecycle>::destroyed`: `unreachable!`. -/
def destroyed (self : Unit) : Except String Unit :=
  Except.error rootParentMsg

/-- `<RootParent as Render>::render`: `unreachable!`; the virtual node it
would produce is irrelevant, only the fault matters. -/
def render (self : Unit) : Except String Unit :=
  Except.error rootParentMsg

end RootParent

end Ruukh

namespace Ruukh

universe v

variable {V : Type v} [DecidableEq V]

/-- Swapping field lists of equal length exchanges them wholesale. -/
theorem swapFields_of_length_eq (a b : List V) (h : a.length = b.length) :
    swapFields a b = (b, a) := by
  induction a generalizing b with
  | nil =>
    cases b with
    | nil => rfl
    | cons y ys => simp at h
  | cons x xs ih =>
    cases b with
    | nil => simp at h
    | cons y ys =>
      have h' : xs.length = ys.length := by simpa using h
      simp [swapFields, ih ys h']

/-- The field-by-field difference check is symmetric. -/
theorem anyDiff_comm (a b : List V) : anyDiff a b = anyDiff b a := by
  induction a generalizing b with
  | nil => cases b <;> rfl
  | cons x xs ih =>
    cases b with
    | nil => rfl
    | cons y ys =>
      show (decide (x ≠ y) || anyDiff xs ys) = (decide (y ≠ x) || anyDiff ys xs)
      rw [ih ys]
      congr 1
      rw [decide_eq_decide]
      exact ne_comm

/-- No field differs from itself. -/
theorem anyDiff_self (a : List V) : anyDiff a a = false := by
  induction a with
  | nil => rfl
  | cons x xs ih =>
    show (decide (x ≠ x) || anyDiff xs xs) = false
    simp [ih]

/-- On lists of equal length, no field differs exactly when the lists are
equal. -/
theorem anyDiff_eq_false_iff (a b : List V) (h : a.length = b.length) :
    anyDiff a b = false ↔ a = b := by
  induction a generalizing b with
  | nil =>
    cases b with
    | nil => simp [anyDiff]
    | cons y ys => simp at h
  | cons x xs ih =>
    cases b with
    | nil => simp at h
    | cons y ys =>
      have h' : xs.length = ys.length := by simpa using h
      show (decide (x ≠ y) || anyDiff xs ys) = false ↔ x :: xs = y :: ys
      simp [ih ys h', List.cons.injEq]

/-- On lists of equal length, the refresh loop rewrites the cached fields
to the status's fields and reports whether any field differed. -/
theorem refreshFields_of_length_eq (a b : List V) (h : a.length = b.length) :
    refreshFields a b = (b, anyDiff a b) := by
  induction a generalizing b with
  | nil =>
    cases b with
    | nil => rfl
    | cons y ys => simp at h
  | cons x xs ih =>
    cases b with
    | nil => simp at h
    | cons y ys =>
      have h' : xs.length = ys.length := by simpa using h
      show (if x ≠ y then (y :: (refreshFields xs ys).1, true)
            else (x :: (refreshFields xs ys).1, (refreshFields xs ys).2))
          = (y :: ys, decide (x ≠ y) || anyDiff xs ys)
      rcases eq_or_ne x y with hxy | hxy
      · subst hxy
        simp [ih ys h']
      · simp [hxy, ih ys h']

/-- C3: dirty-flag reads are destructive. Each read returns the flag's
current value and clears it, so after one mark two consecutive reads yield
`(true, false)`, and repeated reads without an intervening mutation return
`false`. -/
theorem c3_dirty_reads_destructive {σ : Type v} (s : Status σ) :
    (s.is_state_dirty.1 = s.state_dirty
      ∧ s.is_state_dirty.2.state_dirty = false
      ∧ (s.mark_state_dirty.is_state_dirty.1 = true
          ∧ s.mark_state_dirty.is_state_dirty.2.is_state_dirty.1 = false)
      ∧ s.is_state_dirty.2.is_state_dirty.1 = false)
    ∧ (s.is_props_dirty.1 = s.props_dirty
      ∧ s.is_props_dirty.2.props_dirty = false
      ∧ (s.mark_props_dirty.is_props_dirty.1 = true
          ∧ s.mark_props_dirty.is_props_dirty.2.is_props_dirty.1 = false)
      ∧ s.is_props_dirty.2.is_props_dirty.1 = false) := by
  cases s with
  | mk st sd pd =>
    cases sd <;> cases pd <;>
      simp [Status.is_state_dirty, Status.is_props_dirty,
        Status.mark_state_dirty, Status.mark_props_dirty]

/-- C1: for a component with at least one declared prop field, `update`
with props equal in every field returns `None` and leaves the status (in
particular the props-dirty flag) untouched, so a subsequent
`is_props_dirty` on a clean status still reads `false`; `update` with at
least one differing field returns `Some` of the props held before the call
and marks props dirty on the status. -/
theorem c1_update_detects_prop_changes (c : Comp V) (p : List V)
    (hlen : p.length = c.props_fields.length)
    (hfields : c.props_fields ≠ []) :
    (p = c.props_fields →
      update c p = (none, { c with props_fields := p })
        ∧ (c.status.props_dirty = false →
            (update c p).2.status.is_props_dirty.1 = false))
    ∧ (anyDiff c.props_fields p = true →
        (update c p).1 = some c.props_fields
          ∧ (update c p).2.status.props_dirty = true) := by
  have hswap : swapFields c.props_fields p = (p, c.props_fields) :=
    swapFields_of_length_eq _ _ hlen.symm
  constructor
  · intro hp
    subst hp
    have hself : anyDiff c.props_fields c.props_fields = false :=
      anyDiff_self c.props_fields
    constructor
    · simp [update, hswap, hself]
    · intro hclean
      simp [update, hswap, hself, Status.is_props_dirty, hclean]
  · intro hdiff
    have hdiff' : anyDiff p c.props_fields = true := by
      rw [anyDiff_comm]; exact hdiff
    simp [update, hswap, hdiff', Status.set_props_dirty]

/-- Witness for C1 at a concrete component: a one-prop-field component
updated with identical props returns `None` and keeps its status. -/
theorem c1_update_detects_prop_changes_witness :
    update (Comp.mk [] [0] (Status.new [0]) : Comp ℕ) [0]
      = (none, Comp.mk [] [0] (Status.new [0])) := by
  have h := c1_update_detects_prop_changes (V := ℕ)
    (Comp.mk [] [0] (Status.new [0])) [0] (by decide) (by decide)
  exact (h.1 rfl).1

/-- C2 (amended): generated `set_state` always applies the mutation in
place to the state held in the shared status, but marks state dirty and
fires `do_react` only when the mutated state differs from the component's
cached state fields in at least one field; otherwise the dirty flag and
the wake channel are left untouched. -/
theorem c2_set_state_marks_dirty_iff_changed (c : Comp V)
    (m : List V → List V) :
    (set_state c m).1.status.state = m c.status.state
    ∧ (set_state c m).1.status.props_dirty = c.status.props_dirty
    ∧ (set_state c m).1.status.state_dirty
        = (c.status.state_dirty || anyDiff c.state_fields (m c.status.state))
    ∧ (set_state c m).2 = anyDiff c.state_fields (m c.status.state)
    ∧ (set_state c m).1.state_fields = c.state_fields
    ∧ (set_state c m).1.props_fields = c.props_fields := by
  cases hd : anyDiff c.state_fields (m c.status.state) <;>
    simp [set_state, Status.set_state_dirty, Status.state_as_ref, hd]

/-- Counterexample to C2 as stated: on a component with one declared state
field whose cached field equals the status's field, `set_state` with the
identity mutator leaves the state-dirty flag `false` and fires no wake —
the marking is conditional, not unconditional. -/
theorem c2_counterexample :
    (set_state (Comp.mk [0] [] (Status.new [0]) : Comp ℕ) id).1.status.state_dirty
        = false
    ∧ (set_state (Comp.mk [0] [] (Status.new [0]) : Comp ℕ) id).2 = false := by
  constructor <;> rfl

/-- C4: for a component whose cached state fields line up with the status's
state fields, `refresh_state` returns `true` exactly when some field
differs, overwrites exactly the differing cached fields so that the cache
equals the status's state afterwards, leaves the status untouched, returns
`false` on a second call with no intervening mutation, and returns `false`
outright for a component with zero declared state fields. -/
theorem c4_refresh_state_reconciles (c : Comp V)
    (hlen : c.state_fields.length = c.status.state.length) :
    ((refresh_state c).1 = true ↔ c.state_fields ≠ c.status.state)
    ∧ (refresh_state c).2.state_fields = c.status.state
    ∧ (refresh_state c).2.status = c.status
    ∧ (refresh_state (refresh_state c).2).1 = false
    ∧ (c.state_fields = [] → (refresh_state c).1 = false) := by
  have hrf : refreshFields c.state_fields c.status.state
      = (c.status.state, anyDiff c.state_fields c.status.state) :=
    refreshFields_of_length_eq _ _ hlen
  have hiff := anyDiff_eq_false_iff c.state_fields c.status.state hlen
  refine ⟨?_, ?_, ?_, ?_, ?_⟩
  · simp only [refresh_state, Status.state_as_ref, hrf]
    constructor
    · intro ht he
      rw [hiff.2 he] at ht
      exact Bool.false_ne_true ht
    · intro hne
      cases hd : anyDiff c.state_fields c.status.state with
      | false => exact absurd (hiff.1 hd) hne
      | true => rfl
  · simp [refresh_state, Status.state_as_ref, hrf]
  · simp [refresh_state, Status.state_as_ref, hrf]
  · simp [refresh_state, Status.state_as_ref, hrf,
      refreshFields_of_length_eq _ _ rfl, anyDiff_self]
  · intro hnil
    have hnil' : c.status.state = [] := by
      rw [hnil] at hlen
      exact List.length_eq_zero.1 hlen.symm
    simp [refresh_state, Status.state_as_ref, hnil, hnil', refreshFields]

/-- Witness for C4 at a concrete component: cached field `0`, status field
`1`; the refresh reports a change, rewrites the cache to `[1]`, and a
second refresh reports no change. -/
theorem c4_refresh_state_reconciles_witness :
    ((refresh_state (Comp.mk [0] [] (Status.new [1]) : Comp ℕ)).1 = true
      ↔ ([0] : List ℕ) ≠ [1])
    ∧ (refresh_state (Comp.mk [0] [] (Status.new [1]) : Comp ℕ)).2.state_fields
        = [1] := by
  have h := c4_refresh_state_reconciles (V := ℕ)
    (Comp.mk [0] [] (Status.new [1])) (by decide)
  exact ⟨h.1, h.2.1⟩

/-- C5: wake notifications are coalesced. Two external `set_state` calls
each fire the wake handle, yet after both fires the consumer runs exactly
once (one invocation on the first scheduling step, none on the next), and
at that point the status it reads carries the cumulative effect of both
mutations: the state-dirty flag reads `true` and the state is the second
mutation applied after the first. -/
theorem c5_wake_coalescing {σ : Type v} (s0 : Status σ) (m1 m2 : σ → σ)
    (ch : Channel) :
    (setter_set_state s0 m1).2 = true
    ∧ (setter_set_state (setter_set_state s0 m1).1 m2).2 = true
    ∧ (drainOnce (fire (fire ch))).2 = 1
    ∧ (drainOnce (drainOnce (fire (fire ch))).1).2 = 0
    ∧ (setter_set_state (setter_set_state s0 m1).1 m2).1.is_state_dirty.1
        = true
    ∧ (setter_set_state (setter_set_state s0 m1).1 m2).1.state
        = m2 (m1 s0.state) := by
  refine ⟨rfl, rfl, ?_, ?_, ?_, rfl⟩
  · simp [drainOnce, fire]
  · simp [drainOnce, fire]
  · simp [setter_set_state, Status.set_state_dirty, Status.is_state_dirty]

/-- C6: `do_react` never surfaces a fault to the caller. Posting on the
message port reports success even when the consumer side has been torn
down, so the `expect` inside `do_react` never panics and the call is a
silent no-op on a disconnected channel. -/
theorem c6_do_react_never_faults (connected : Bool) :
    do_react connected = CallResult.ok ()
    ∧ post_message connected = Except.ok () := by
  cases connected <;> exact ⟨rfl, rfl⟩

/-- C7 (amended): the external state-setter handle's `set_state` and the
component instance's `set_state` always leave the same state value in the
shared status, and they leave the whole status and the wake channel in the
same condition whenever the mutated state differs from the instance's
cached state fields in at least one field. (When it does not differ, the
instance's version leaves the dirty flag and wake untouched while the
handle's version marks dirty and fires — see the counterexample.) -/
theorem c7_setter_matches_instance_on_change (cached pr : List V)
    (s : Status (List V)) (m : List V → List V) :
    (setter_set_state s m).1.state
        = (set_state (Comp.mk cached pr s) m).1.status.state
    ∧ (anyDiff cached (m s.state) = true →
        (setter_set_state s m).1
            = (set_state (Comp.mk cached pr s) m).1.status
          ∧ (setter_set_state s m).2
            = (set_state (Comp.mk cached pr s) m).2) := by
  constructor
  · cases hd : anyDiff cached (m s.state) <;>
      simp [setter_set_state, set_state, Status.set_state_dirty,
        Status.state_as_ref, hd]
  · intro hd
    simp [setter_set_state, set_state, Status.set_state_dirty,
      Status.state_as_ref, hd]

/-- Witness for C7 at a concrete input where the mutation changes the
state: the handle and the instance produce identical statuses and both
fire. -/
theorem c7_setter_matches_instance_on_change_witness :
    (setter_set_state (Status.new [0] : Status (List ℕ)) (fun _ => [1])).1
        = (set_state (Comp.mk [0] [] (Status.new [0])) (fun _ => [1])).1.status
    ∧ (setter_set_state (Status.new [0] : Status (List ℕ)) (fun _ => [1])).2
        = (set_state (Comp.mk [0] [] (Status.new [0])) (fun _ => [1])).2 := by
  have h := c7_setter_matches_instance_on_change (V := ℕ)
    [0] [] (Status.new [0]) (fun _ => [1])
  exact h.2 (by decide)

/-- Counterexample to C7 as stated: with the identity mutator on a status
whose state equals the cached fields, the external handle marks dirty and
fires while the instance does neither, so the two `set_state`s do not leave
the status and the wake channel in the same condition. -/
theorem c7_counterexample :
    ¬ ((setter_set_state (Status.new [0] : Status (List ℕ)) id).1
          = (set_state (Comp.mk [0] [] (Status.new [0])) id).1.status
        ∧ (setter_set_state (Status.new [0] : Status (List ℕ)) id).2
          = (set_state (Comp.mk [0] [] (Status.new [0])) id).2) := by
  intro h
  exact absurd h.2 (by decide)

/-- C8: for a component with zero declared state fields, `set_state` runs
the mutator against a throwaway unit value and does nothing else: the
shared status (both dirty flags included) is untouched and no wake is
fired. -/
theorem c8_stateless_set_state_noop {σ : Type v} (s : Status σ)
    (m : Unit → Unit) :
    (set_state_stateless s m).1 = s
    ∧ (set_state_stateless s m).2.1 = m ()
    ∧ (set_state_stateless s m).2.2 = false
    ∧ (set_state_stateless s m).1.state_dirty = s.state_dirty
    ∧ (set_state_stateless s m).1.props_dirty = s.props_dirty :=
  ⟨rfl, rfl, rfl, rfl, rfl⟩

/-- C9: the swap-then-compare `update` of the generated code returns the
same option and leaves the component (props fields, status, dirty flag) in
the same condition as the reference strategy that captures old and new
props before any mutation and compares them directly. -/
theorem c9_update_equals_reference (c : Comp V) (p : List V)
    (hlen : p.length = c.props_fields.length) :
    update c p = update_ref c p := by
  have hswap : swapFields c.props_fields p = (p, c.props_fields) :=
    swapFields_of_length_eq _ _ hlen.symm
  have hcomm : anyDiff p c.props_fields = anyDiff c.props_fields p :=
    anyDiff_comm _ _
  simp only [update, update_ref, hswap, hcomm]

/-- Witness for C9 at a concrete component and props value. -/
theorem c9_update_equals_reference_witness :
    update (Comp.mk [] [0] (Status.new [0]) : Comp ℕ) [1]
      = update_ref (Comp.mk [] [0] (Status.new [0]) : Comp ℕ) [1] :=
  c9_update_equals_reference (V := ℕ) (Comp.mk [] [0] (Status.new [0])) [1]
    (by decide)

/-- C10: every `Component`, `Lifecycle` and `Render` operation of the
`RootParent` void component faults with the unreachable panic, for any
inputs. -/
theorem c10_root_parent_unusable :
    (∀ p e st, RootParent.init p e st = Except.error rootParentMsg)
    ∧ (∀ s p e, RootParent.update s p e = Except.error rootParentMsg)
    ∧ (∀ s, RootParent.refresh_state s = Except.error rootParentMsg)
    ∧ (∀ s, RootParent.is_state_dirty s = Except.error rootParentMsg)
    ∧ (∀ s, RootParent.is_props_dirty s = Except.error rootParentMsg)
    ∧ (∀ s m, RootParent.set_state s m = Except.error rootParentMsg)
    ∧ (∀ s, RootParent.created s = Except.error rootParentMsg)
    ∧ (∀ s p, RootParent.updated s p = Except.error rootParentMsg)
    ∧ (∀ s, RootParent.mounted s = Except.error rootParentMsg)
    ∧ (∀ s, RootParent.destroyed s = Except.error rootParentMsg)
    ∧ (∀ s, RootParent.render s = Except.error rootParentMsg) :=
  ⟨fun _ _ _ => rfl, fun _ _ _ => rfl, fun _ => rfl, fun _ => rfl,
    fun _ => rfl, fun _ _ => rfl, fun _ => rfl, fun _ _ => rfl,
    fun _ => rfl, fun _ => rfl, fun _ => rfl⟩

end Ruukh
